import Mathlib

set_option linter.unusedVariables false

/-!
Shallow embedding of the third-party OAuth login handshake of
TangSengDaoDaoServer (`modules/user/api_gitee.go`) and of the webhook push
deduplication (`webhook` package, `EchoooPush.Push`), together with proofs
about the handshake protocol between the poll endpoint (`thirdAuthStatus`),
the begin endpoint (`thirdAuthcode`) and the OAuth callbacks (`giteeOAuth`,
`mallOAuth`).

The Redis connection is modelled as a finite key-value store with per-key
TTL bookkeeping; network calls, database queries and the login subsystem
are modelled as explicit environment inputs carrying their outcomes, so
every handler becomes a pure function from (environment, store, request)
to (response, store, recorded effects).
-/

/-- A single stored value in the Redis-like Handoff Store: the string value
together with the TTL (in seconds) it was last set with. -/
structure StoreEntry where
  value : String
  ttl : Nat
  deriving DecidableEq

/-- The Handoff Store: a key-value cache, `none` meaning absent (or expired,
which the `GetString` API cannot distinguish from absent). -/
def Store := String → Option StoreEntry

/-- `SetAndExpire`: write a value under a key with a TTL. -/
def Store.set (s : Store) (k v : String) (t : Nat) : Store :=
  fun k2 => if k2 = k then some ⟨v, t⟩ else s k2

/-- `Del`: remove a key. -/
def Store.del (s : Store) (k : String) : Store :=
  fun k2 => if k2 = k then none else s k2

/-- `GetString`: read a key, returning the empty string when absent,
exactly as the Go Redis wrapper does. -/
def Store.getString (s : Store) (k : String) : String :=
  match s k with
  | some e => e.value
  | none => ""

/-- The empty store. -/
def Store.empty : Store := fun _ => none

theorem Store.getString_set_self (s : Store) (k v : String) (t : Nat) :
    (s.set k v t).getString k = v := by
  simp [Store.set, Store.getString]

theorem Store.getString_del_self (s : Store) (k : String) :
    (s.del k).getString k = "" := by
  simp [Store.del, Store.getString]

/-- The key under which a handshake lives: the fixed string
`ThirdAuthcodePrefix = "thirdlogin:authcode:"` followed by the authcode. -/
def thirdAuthcodeKey (authcode : String) : String :=
  "thirdlogin:authcode:" ++ authcode

/-- Modelled from the spec: the login result payload (`loginUserDetailResp`
is declared outside the shown source; the spec describes it only as a
serializable session/login payload, so it is modelled as a record of the
session-identifying strings). -/
structure LoginResult where
  uid : String
  token : String
  name : String
  deriving DecidableEq

/-- JSON string escaping for the two characters that require it in the
serialized payload model: a quote or a backslash is preceded by a
backslash. -/
def escapeChars : List Char → List Char
  | [] => []
  | c :: rest =>
    if c = '"' ∨ c = '\\' then '\\' :: c :: escapeChars rest
    else c :: escapeChars rest

/-- Parse the body of a JSON string (the opening quote already consumed),
returning the unescaped contents and the input remaining after the closing
quote. -/
def parseStringBody : List Char → Option (List Char × List Char)
  | [] => none
  | c :: rest =>
    if c = '\\' then
      match rest with
      | [] => none
      | d :: rest2 =>
        match parseStringBody rest2 with
        | some (s, r) => some (d :: s, r)
        | none => none
    else if c = '"' then some ([], rest)
    else
      match parseStringBody rest with
      | some (s, r) => some (c :: s, r)
      | none => none

/-- Consume an expected literal off the front of the input. -/
def expectLit : List Char → List Char → Option (List Char)
  | [], input => some input
  | _ :: _, [] => none
  | p :: ps, c :: cs => if c = p then expectLit ps cs else none

/-- Literal opening of the serialized login result, up to and including the
opening quote of the `uid` field value. -/
def jsonLit1 : List Char := ['\x7b', '"', 'u', 'i', 'd', '"', ':', '"']

/-- Literal between the `uid` value (whose closing quote the string parser
consumes) and the opening quote of the `token` value. -/
def jsonLit2 : List Char := [',', '"', 't', 'o', 'k', 'e', 'n', '"', ':', '"']

/-- Literal between the `token` value and the opening quote of the `name`
value. -/
def jsonLit3 : List Char := [',', '"', 'n', 'a', 'm', 'e', '"', ':', '"']

/-- Literal tail after the `name` value's closing quote. -/
def jsonLit4 : List Char := ['\x7d']

/-- Serialize a login result to JSON characters (models `util.ToJson`). -/
def printLoginResult (lr : LoginResult) : List Char :=
  jsonLit1 ++ (escapeChars lr.uid.data ++ ('"' ::
    (jsonLit2 ++ (escapeChars lr.token.data ++ ('"' ::
      (jsonLit3 ++ (escapeChars lr.name.data ++ ('"' :: jsonLit4))))))))

/-- Parse a serialized login result (models `util.ReadJsonByByte` at the
type `loginUserDetailResp`). -/
def parseLoginResult (input : List Char) : Option LoginResult :=
  match expectLit jsonLit1 input with
  | none => none
  | some r1 =>
    match parseStringBody r1 with
    | none => none
    | some (uid, r2) =>
      match expectLit jsonLit2 r2 with
      | none => none
      | some r3 =>
        match parseStringBody r3 with
        | none => none
        | some (token, r4) =>
          match expectLit jsonLit3 r4 with
          | none => none
          | some r5 =>
            match parseStringBody r5 with
            | none => none
            | some (name, r6) =>
              if r6 = jsonLit4 then some ⟨String.mk uid, String.mk token, String.mk name⟩
              else none

/-- `util.ToJson` on a login result, as a string. -/
def toJson (lr : LoginResult) : String := String.mk (printLoginResult lr)

/-- `util.ReadJsonByByte` on a stored string, at type `loginUserDetailResp`. -/
def readJson (s : String) : Option LoginResult := parseLoginResult s.data

theorem expectLit_append (p r : List Char) : expectLit p (p ++ r) = some r := by
  induction p with
  | nil => rfl
  | cons c cs ih => simp [expectLit, ih]

theorem parseStringBody_cons (c : Char) (l : List Char) :
    parseStringBody (c :: l) =
      if c = '\\' then
        (match l with
         | [] => none
         | d :: rest2 =>
           match parseStringBody rest2 with
           | some (s, r) => some (d :: s, r)
           | none => none)
      else if c = '"' then some ([], l)
      else
        match parseStringBody l with
        | some (s, r) => some (c :: s, r)
        | none => none := by
  rw [parseStringBody.eq_def]

theorem parseStringBody_escape (s r : List Char) :
    parseStringBody (escapeChars s ++ '"' :: r) = some (s, r) := by
  induction s with
  | nil =>
    rw [escapeChars, List.nil_append, parseStringBody_cons,
        if_neg (by decide), if_pos rfl]
  | cons c rest ih =>
    rw [escapeChars]
    by_cases h : c = '"' ∨ c = '\\'
    · rw [if_pos h]
      show parseStringBody ('\\' :: c :: (escapeChars rest ++ '"' :: r)) = _
      rw [parseStringBody_cons, if_pos rfl]
      simp [ih]
    · push_neg at h
      rw [if_neg (by tauto)]
      show parseStringBody (c :: (escapeChars rest ++ '"' :: r)) = _
      rw [parseStringBody_cons, if_neg h.2, if_neg h.1]
      simp [ih]

theorem readJson_toJson (lr : LoginResult) : readJson (toJson lr) = some lr := by
  show parseLoginResult (printLoginResult lr) = some lr
  simp [parseLoginResult, printLoginResult, expectLit_append, parseStringBody_escape]

theorem printLoginResult_head (lr : LoginResult) :
    printLoginResult lr =
      '\x7b' :: (['"', 'u', 'i', 'd', '"', ':', '"'] ++
        (escapeChars lr.uid.data ++ ('"' ::
          (jsonLit2 ++ (escapeChars lr.token.data ++ ('"' ::
            (jsonLit3 ++ (escapeChars lr.name.data ++ ('"' :: jsonLit4))))))))) := by
  rw [printLoginResult, jsonLit1]
  rfl

theorem toJson_length_ne_zero (lr : LoginResult) : ¬ (toJson lr).length = 0 := by
  show ¬ (String.mk (printLoginResult lr)).length = 0
  rw [printLoginResult_head]
  simp [String.length]

theorem toJson_ne_one (lr : LoginResult) : toJson lr ≠ "1" := by
  intro h
  have h2 : printLoginResult lr = ['1'] := congrArg String.data h
  rw [printLoginResult_head] at h2
  simp at h2

theorem toJson_ne_zero (lr : LoginResult) : toJson lr ≠ "0" := by
  intro h
  have h2 : printLoginResult lr = ['0'] := congrArg String.data h
  rw [printLoginResult_head] at h2
  simp at h2

/-- Response of the begin endpoint `thirdAuthcode`. -/
inductive BeginResp where
  | error (msg : String)
  | ok (authcode : String)
  deriving DecidableEq

/-- Environment of `thirdAuthcode`: the fresh UUID produced by
`util.GenerUUID()` and whether the Redis `SetAndExpire` fails. -/
structure BeginEnv where
  newAuthcode : String
  setFails : Bool

/-- Embedding of `thirdAuthcode` (api_gitee.go lines 29-41): generate an
authcode, write the pending sentinel "1" under the prefixed key with a
5-minute (300 s) TTL, respond with the authcode; on Redis error respond
"redis set error" and leave the store unchanged. -/
def thirdAuthcode (env : BeginEnv) (store : Store) : BeginResp × Store :=
  if env.setFails then (BeginResp.error "redis set error", store)
  else (BeginResp.ok env.newAuthcode,
        store.set (thirdAuthcodeKey env.newAuthcode) "1" 300)

/-- Response of the poll endpoint `thirdAuthStatus`: an error response, or a
status payload (`status 0` pending, `status 2` failed, `status 1` with the
deserialized login result on success). -/
inductive PollResp where
  | error (msg : String)
  | status (code : Nat) (result : Option LoginResult)
  deriving DecidableEq

/-- Environment of `thirdAuthStatus`: whether `GetString` fails and whether
`Del` fails. -/
structure PollEnv where
  getFails : Bool
  delFails : Bool

/-- Embedding of `thirdAuthStatus` (api_gitee.go lines 43-84). Reads the
prefixed key; on read error responds with an error; empty value means
expired/not-found; "1" means pending (status 0, entry left in place); "0"
means failed (status 2, entry left in place — the code returns before the
`Del`); any other value is first deleted (a `Del` failure is only logged)
and then JSON-decoded into the login result (status 1), a decode failure
being surfaced as an error response. -/
def thirdAuthStatus (env : PollEnv) (store : Store) (authcode : String) :
    PollResp × Store :=
  let key := thirdAuthcodeKey authcode
  if env.getFails then (PollResp.error "获取登录状态失败！", store)
  else
    let result := store.getString key
    if result.length = 0 then (PollResp.error "登录状态已过期！", store)
    else if result = "1" then (PollResp.status 0 none, store)
    else if result = "0" then (PollResp.status 2 none, store)
    else
      let store2 := if env.delFails then store else store.del key
      match readJson result with
      | none => (PollResp.error "json unmarshal error", store2)
      | some lr => (PollResp.status 1 (some lr), store2)

/-- Subset of `giteeUserInfo` read by the handlers: the stable external
login identifier, display name and avatar URL (the remaining two dozen
JSON fields are carried through to the database row untouched and play no
role in the handshake). -/
structure GiteeUserInfo where
  login : String
  name : String
  avatarURL : String
  deriving DecidableEq

/-- Subset of `MallUser` read by the handlers: the external user id and the
photo (avatar) URL. -/
structure MallUser where
  userID : String
  photo : String
  deriving DecidableEq

/-- The linked-account row returned by `queryWithGiteeUID` (the `Model`
type lives outside the shown source; the handlers read only the account
UID and the `IsDestroy` destroyed flag, per the spec's `Account`). -/
structure UserInfoModel where
  uid : String
  isDestroy : Nat
  deriving DecidableEq

/-- The device flag `config.APP` (a library constant; its numeric value is
irrelevant to every claim). -/
def appFlag : Nat := 1

/-- The `createUserModel` built by the provisioning path (fields set by
`giteeOAuth`/`mallOAuth`). -/
structure CreateUserModel where
  uid : String
  zone : String
  phone : String
  password : String
  name : String
  giteeUID : String
  flag : Nat
  isUploadAvatar : Nat
  deriving DecidableEq

/-- Response of a callback handler: an error response
(`c.ResponseError`) or the placeholder page (`c.String(200, ...)`). -/
inductive CallbackResp where
  | error (msg : String)
  | ok (msg : String)
  deriving DecidableEq

/-- Full observable outcome of a callback handler: the HTTP response, the
resulting Handoff Store, the `createUserModel` passed to
`createUserWithRespAndTx` (if provisioning was reached), whether
`execLogin` was invoked, and whether the avatar download / upload steps
were attempted. -/
structure CallbackOutcome where
  resp : CallbackResp
  store : Store
  createdUser : Option CreateUserModel
  execLoginCalled : Bool
  downloadAttempted : Bool
  uploadAttempted : Bool

/-- Embedding of Go's `strings.HasSuffix`. -/
def strHasSuffix (s suff : String) : Bool :=
  suff.length ≤ s.length && s.data.drop (s.length - suff.length) == suff.data

/-- An HTTP response as seen by `requestGiteeUserInfo`: status code and
body. -/
structure HttpResp where
  statusCode : Nat
  body : String
  deriving DecidableEq

/-- Embedding of `requestGiteeAccessToken` (api_gitee.go lines 389-409).
Its argument models the outcome of `network.PostForWWWForm`: either a
transport error, or the `access_token` field of the decoded form response
(`none` when the field is absent / nil; the code reads no other field).
On transport error the error is returned; otherwise the token — or the
empty string when the field is absent — is returned with no error. -/
def requestGiteeAccessToken (postResult : Except String (Option String)) :
    Except String String :=
  match postResult with
  | Except.error e => Except.error e
  | Except.ok tokenField => Except.ok (tokenField.getD "")

/-- Embedding of `requestGiteeUserInfo` (api_gitee.go lines 373-387).
`getResult` models the `network.Get` outcome; `parse` models
`util.ReadJsonByByte` on the body (which, on success, always yields a
non-nil `*giteeUserInfo`, so the caller's nil check is dead code). -/
def requestGiteeUserInfo (getResult : Except String HttpResp)
    (parse : String → Except String GiteeUserInfo) :
    Except String GiteeUserInfo :=
  match getResult with
  | Except.error e => Except.error e
  | Except.ok resp =>
    if resp.statusCode = 200 then
      match parse resp.body with
      | Except.error e => Except.error e
      | Except.ok info => Except.ok info
    else Except.error ("获取gitee用户信息失败，状态码：" ++ toString resp.statusCode)

/-- Shared tail of both callbacks (api_gitee.go lines 217-228 and 357-368):
serialize the login result — or the failure sentinel "0" when it is nil —
and overwrite the handshake entry with a 1-minute (60 s) TTL; a store
write error is surfaced as an error response with no write. -/
def finishOutcome (setFails : Bool) (store : Store) (authcode : String)
    (loginResp : Option LoginResult) (createdUser : Option CreateUserModel)
    (execLoginCalled downloadAttempted uploadAttempted : Bool) : CallbackOutcome :=
  let loginRespStr :=
    match loginResp with
    | some lr => toJson lr
    | none => "0"
  if setFails then
    ⟨CallbackResp.error "redis set error", store, createdUser,
      execLoginCalled, downloadAttempted, uploadAttempted⟩
  else
    ⟨CallbackResp.ok "登录失败！",
      store.set (thirdAuthcodeKey authcode) loginRespStr 60, createdUser,
      execLoginCalled, downloadAttempted, uploadAttempted⟩

/-- Environment of `giteeOAuth`: outcomes of the provider network calls,
the database lookup, the fresh UUID, the avatar pipeline steps, the
transaction primitives, the login/provisioning subsystem calls and the
final Redis write. -/
structure GiteeEnv where
  postResult : Except String (Option String)
  profileResp : Except String HttpResp
  parseProfile : String → Except String GiteeUserInfo
  queryResult : Except String (Option UserInfoModel)
  execLoginResult : Except String LoginResult
  newUID : String
  downloadOk : Bool
  uploadOk : Bool
  beginTxOk : Bool
  insertOk : Bool
  createUserResult : Except String (Option LoginResult)

  setFails : Bool

/-- Embedding of `giteeOAuth` (api_gitee.go lines 96-231). Empty `code`
fails immediately with no store write; provider exchange / profile-fetch
errors are surfaced as error responses with no store write; a matched
linked account with `IsDestroy == 1` fails with "用户不存在" before
`execLogin`; otherwise the account is logged in, or — on no match —
provisioned: the avatar pipeline (guarded by a non-empty avatar URL not
ending in "no_portrait.png") sets `IsUploadAvatar` to 1 only when both
download and upload succeed and never aborts the flow; the transaction
begin / insert failures abort with error responses; finally the login
result (or "0" when nil) is written to the handshake entry. The avatar
download's 5-second timeout is modelled as part of the download outcome
(`downloadOk = false` covers both a nil reader and a timeout). -/
def giteeOAuth (env : GiteeEnv) (store : Store) (code : String)
    (state : String) : CallbackOutcome :=
  if code.length = 0 then
    ⟨CallbackResp.error "code不能为空", store, none, false, false, false⟩
  else
    let authcode := state
    match requestGiteeAccessToken env.postResult with
    | Except.error e => ⟨CallbackResp.error e, store, none, false, false, false⟩
    | Except.ok _accessToken =>
      match requestGiteeUserInfo env.profileResp env.parseProfile with
      | Except.error e => ⟨CallbackResp.error e, store, none, false, false, false⟩
      | Except.ok userInfo =>
        match env.queryResult with
        | Except.error _ =>
          ⟨CallbackResp.error "查询gitee用户信息失败！", store, none, false, false, false⟩
        | Except.ok (some userInfoM) =>
          if userInfoM.isDestroy = 1 then
            ⟨CallbackResp.error "用户不存在", store, none, false, false, false⟩
          else
            match env.execLoginResult with
            | Except.error e => ⟨CallbackResp.error e, store, none, true, false, false⟩
            | Except.ok loginResp =>
              finishOutcome env.setFails store authcode (some loginResp) none true false false
        | Except.ok none =>
          let uid := env.newUID
          let name := if userInfo.name.trim = "" then userInfo.login else userInfo.name
          let attemptAvatar :=
            userInfo.avatarURL != "" && ! strHasSuffix userInfo.avatarURL "no_portrait.png"
          let uploadAttempted := attemptAvatar && env.downloadOk
          let isUploadAvatar := if uploadAttempted && env.uploadOk then 1 else 0
          let model : CreateUserModel :=
            ⟨uid, "", "", "", name, userInfo.login, appFlag, isUploadAvatar⟩
          if env.beginTxOk then
            if env.insertOk then
              match env.createUserResult with
              | Except.error e =>
                ⟨CallbackResp.error e, store, some model, false, attemptAvatar, uploadAttempted⟩
              | Except.ok loginRespOpt =>
                finishOutcome env.setFails store authcode loginRespOpt (some model)
                  false attemptAvatar uploadAttempted
            else
              ⟨CallbackResp.error "插入gitee user失败！", store, none, false,
                attemptAvatar, uploadAttempted⟩
          else
            ⟨CallbackResp.error "开启事务失败！", store, none, false,
              attemptAvatar, uploadAttempted⟩

/-- Environment of `mallOAuth`: as for `giteeOAuth`, with the provider
calls collapsed into `requestMallAccessToken`'s outcome (that helper does
its own status-code check and returns the decoded `MallUser` or an
error). -/
structure MallEnv where
  mallUserResult : Except String MallUser
  queryResult : Except String (Option UserInfoModel)
  execLoginResult : Except String LoginResult
  newUID : String
  downloadOk : Bool
  uploadOk : Bool
  beginTxOk : Bool
  insertOk : Bool
  createUserResult : Except String (Option LoginResult)
  setFails : Bool

/-- Embedding of `mallOAuth` (api_gitee.go lines 234-371), the commerce
variant of `giteeOAuth`: the `token` query parameter plays the role of the
code (empty fails immediately with no store write), the external id is
`userID`, the avatar URL is `photo`, and the name assignment's trim branch
is a no-op in the source (both arms assign `userInfo.UserID`). -/
def mallOAuth (env : MallEnv) (store : Store) (token : String)
    (state : String) : CallbackOutcome :=
  if token.length = 0 then
    ⟨CallbackResp.error "电商token不能为空", store, none, false, false, false⟩
  else
    let authcode := state
    match env.mallUserResult with
    | Except.error e => ⟨CallbackResp.error e, store, none, false, false, false⟩
    | Except.ok userInfo =>
      match env.queryResult with
      | Except.error _ =>
        ⟨CallbackResp.error "查询mall用户信息失败！", store, none, false, false, false⟩
      | Except.ok (some userInfoM) =>
        if userInfoM.isDestroy = 1 then
          ⟨CallbackResp.error "用户不存在", store, none, false, false, false⟩
        else
          match env.execLoginResult with
          | Except.error e => ⟨CallbackResp.error e, store, none, true, false, false⟩
          | Except.ok loginResp =>
            finishOutcome env.setFails store authcode (some loginResp) none true false false
      | Except.ok none =>
        let uid := env.newUID
        let name := userInfo.userID
        let attemptAvatar :=
          userInfo.photo != "" && ! strHasSuffix userInfo.photo "no_portrait.png"
        let uploadAttempted := attemptAvatar && env.downloadOk
        let isUploadAvatar := if uploadAttempted && env.uploadOk then 1 else 0
        let model : CreateUserModel :=
          ⟨uid, "", "", "", name, userInfo.userID, appFlag, isUploadAvatar⟩
        if env.beginTxOk then
          if env.insertOk then
            match env.createUserResult with
            | Except.error e =>
              ⟨CallbackResp.error e, store, some model, false, attemptAvatar, uploadAttempted⟩
            | Except.ok loginRespOpt =>
              finishOutcome env.setFails store authcode loginRespOpt (some model)
                false attemptAvatar uploadAttempted
          else
            ⟨CallbackResp.error "插入mall user失败！", store, none, false,
              attemptAvatar, uploadAttempted⟩
        else
          ⟨CallbackResp.error "开启事务失败！", store, none, false,
            attemptAvatar, uploadAttempted⟩

/-- The key of the webhook push deduplication side-channel: the fixed
string `ECHOOO_PUSH_UID = "tsdd:echooo:push_uid:"` followed by the
recipient uid. -/
def echoooPushKey (uid : String) : String :=
  "tsdd:echooo:push_uid:" ++ uid

/-- Embedding of Go's `strings.Split(s, ",")`. -/
def splitComma : List Char → List Char → List String
  | [], acc => [String.mk acc.reverse]
  | c :: rest, acc =>
    if c = ',' then String.mk acc.reverse :: splitComma rest []
    else splitComma rest (c :: acc)

/-- Split the configured server address list on commas. -/
def splitServers (s : String) : List String := splitComma s.data []

/-- The three observable outcomes of the `http.Post` call for one server.
`success`: non-nil response, nil error. `errNilResp`: an error with a nil
response (the ordinary transport-failure case) — the
`defer resp.Body.Close()` at part_000 line 66 then evaluates `resp.Body`
on the nil response and panics before the error check is reached, so the
loop's `continue` never runs there. `errWithResp`: an error carried
alongside a non-nil response (the only way `http.Post` yields both, a
redirect-check failure) — the deferred close is harmless and the `continue`
branch moves on to the next server. -/
inductive PostOutcome where
  | success
  | errNilResp
  | errWithResp
  deriving DecidableEq

/-- Environment of `EchoooPush.Push`: the configured server addresses,
whether the dedup-key read fails, the per-server outcome of the outbound
`http.Post`, and whether the marker `SetAndExpire` (whose error the code
ignores) fails. -/
structure PushEnv where
  serverAddresses : String
  getFails : Bool
  postOutcome : String → PostOutcome
  setFails : Bool

/-- How a run of the server loop ended: every server was tried without a
successful post (`completed`), a post succeeded and the loop broke out
(`broke`), or a nil-response post error made the deferred `resp.Body.Close()`
panic (`panicked`). -/
inductive LoopExit where
  | completed
  | broke
  | panicked
  deriving DecidableEq

/-- Result of a server-loop run: the cache, the number of `http.Post`
calls made, and how the loop ended. -/
structure LoopResult where
  store : Store
  sent : Nat
  exit : LoopExit

/-- The `Push` result: the function panicked at the deferred nil-response
body close, returned an error, or returned nil. -/
inductive PushResult where
  | panicked
  | errored (msg : String)
  | ok
  deriving DecidableEq

/-- Observable outcome of `Push`: how it returned (or panicked), the
resulting cache and the number of outbound notification requests made. -/
structure PushOutcome where
  result : PushResult
  store : Store
  requestsSent : Nat

/-- The server loop of `Push` (part_000 lines 54-76): each iteration posts
the notification; on a successful post it writes the presence marker "1"
under the dedup key with a 5-minute (300 s) TTL (ignoring any write error)
and breaks; on a post error with a nil response the deferred
`resp.Body.Close()` (line 66, queued before the error check) panics,
aborting the whole call with the cache untouched; on a post error with a
non-nil response the `continue` moves on to the next server. -/
def pushLoop (env : PushEnv) (key : String) (store : Store) :
    List String → Nat → LoopResult
  | [], sent => ⟨store, sent, LoopExit.completed⟩
  | server :: rest, sent =>
    match env.postOutcome server with
    | PostOutcome.success =>
      ⟨if env.setFails then store else store.set key "1" 300, sent + 1,
        LoopExit.broke⟩
    | PostOutcome.errNilResp => ⟨store, sent + 1, LoopExit.panicked⟩
    | PostOutcome.errWithResp => pushLoop env key store rest (sent + 1)

/-- Embedding of `EchoooPush.Push` (part_000 lines 36-79): read the dedup
key (a read error is returned); a non-empty value suppresses the push (nil
returned, no request sent); otherwise, when server addresses are
configured, iterate the server loop — a panic inside it propagates out of
`Push`; in every other case the function returns nil. -/
def Push (env : PushEnv) (store : Store) (uid : String) (content : String) :
    PushOutcome :=
  let key := echoooPushKey uid
  if env.getFails then
    ⟨PushResult.errored "pushToEchoooApi to get cache key error", store, 0⟩
  else
    let result := store.getString key
    if 0 < result.length then ⟨PushResult.ok, store, 0⟩
    else if 0 < env.serverAddresses.length then
      let servers := splitServers env.serverAddresses
      let loopOut := pushLoop env key store servers 0
      match loopOut.exit with
      | LoopExit.panicked => ⟨PushResult.panicked, loopOut.store, loopOut.sent⟩
      | _ => ⟨PushResult.ok, loopOut.store, loopOut.sent⟩
    else ⟨PushResult.ok, store, 0⟩

theorem thirdAuthStatus_pending (s : Store) (a : String)
    (h : s.getString (thirdAuthcodeKey a) = "1") :
    thirdAuthStatus ⟨false, false⟩ s a = (PollResp.status 0 none, s) := by
  have l1 : ¬ ("1" : String).length = 0 := by decide
  simp [thirdAuthStatus, h, l1]

/-- C3: `thirdAuthcode` writes the pending sentinel "1" under the prefixed
key with a 5-minute (300 s) expiry and returns the generated authcode; it
fails (with "redis set error", leaving the store unchanged) exactly when
the store write fails; and a `thirdAuthStatus` poll performed on the
resulting store before any callback write returns the Pending status
(client code 0) and leaves the entry in place. -/
theorem C3_begin_then_poll_pending (env : BeginEnv) (store : Store)
    (h : env.setFails = false) :
    thirdAuthcode env store =
      (BeginResp.ok env.newAuthcode,
        store.set (thirdAuthcodeKey env.newAuthcode) "1" 300) ∧
    (∀ env2 : BeginEnv, ∀ s2 : Store, env2.setFails = true →
      thirdAuthcode env2 s2 = (BeginResp.error "redis set error", s2)) ∧
    thirdAuthStatus ⟨false, false⟩ (thirdAuthcode env store).2 env.newAuthcode =
      (PollResp.status 0 none, (thirdAuthcode env store).2) := by
  refine ⟨by simp [thirdAuthcode, h], fun env2 s2 h2 => by simp [thirdAuthcode, h2], ?_⟩
  have hs : (thirdAuthcode env store).2 =
      store.set (thirdAuthcodeKey env.newAuthcode) "1" 300 := by
    simp [thirdAuthcode, h]
  rw [hs]
  exact thirdAuthStatus_pending _ _ (Store.getString_set_self _ _ _ _)

/-- C3 witness: a concrete begin-then-poll run. -/
theorem C3_begin_then_poll_pending_witness :
    thirdAuthcode ⟨"abc123", false⟩ Store.empty =
      (BeginResp.ok "abc123",
        Store.empty.set (thirdAuthcodeKey "abc123") "1" 300) ∧
    (∀ env2 : BeginEnv, ∀ s2 : Store, env2.setFails = true →
      thirdAuthcode env2 s2 = (BeginResp.error "redis set error", s2)) ∧
    thirdAuthStatus ⟨false, false⟩ (thirdAuthcode ⟨"abc123", false⟩ Store.empty).2 "abc123" =
      (PollResp.status 0 none, (thirdAuthcode ⟨"abc123", false⟩ Store.empty).2) :=
  C3_begin_then_poll_pending ⟨"abc123", false⟩ Store.empty rfl

/-- C1 counterexample: with the Handoff Store entry for "abc123" holding
the terminal failure sentinel "0", the first poll returns the Failed
status but the entry is NOT deleted, and a second poll returns Failed
again — not the NotFound ("登录状态已过期！") response the claim requires. -/
theorem C1_failed_poll_counterexample :
    thirdAuthStatus ⟨false, false⟩
        (Store.empty.set (thirdAuthcodeKey "abc123") "0" 60) "abc123" =
      (PollResp.status 2 none,
        Store.empty.set (thirdAuthcodeKey "abc123") "0" 60) ∧
    (thirdAuthStatus ⟨false, false⟩
        (thirdAuthStatus ⟨false, false⟩
          (Store.empty.set (thirdAuthcodeKey "abc123") "0" 60) "abc123").2
        "abc123").1 = PollResp.status 2 none ∧
    (thirdAuthStatus ⟨false, false⟩
        (thirdAuthStatus ⟨false, false⟩
          (Store.empty.set (thirdAuthcodeKey "abc123") "0" 60) "abc123").2
        "abc123").1 ≠ PollResp.error "登录状态已过期！" := by
  refine ⟨rfl, rfl, by decide⟩

/-- C1 amended: only a poll that reads a serialized login result (a stored
value other than the sentinels "1" and "0") deletes the entry, so the
second poll then returns NotFound; a poll that reads the failure sentinel
"0" returns the Failed status and leaves the entry in place, so every
subsequent poll returns Failed again until the entry's own TTL expiry. -/
theorem C1_amended_terminal_reads (s1 s2 : Store) (a b v : String)
    (h1 : s1.getString (thirdAuthcodeKey a) = v)
    (hv0 : ¬ v.length = 0) (hv1 : ¬ v = "1") (hv2 : ¬ v = "0")
    (h2 : s2.getString (thirdAuthcodeKey b) = "0") :
    (thirdAuthStatus ⟨false, false⟩ s1 a).2 = s1.del (thirdAuthcodeKey a) ∧
    (thirdAuthStatus ⟨false, false⟩
        ((thirdAuthStatus ⟨false, false⟩ s1 a).2) a).1 =
      PollResp.error "登录状态已过期！" ∧
    thirdAuthStatus ⟨false, false⟩ s2 b = (PollResp.status 2 none, s2) ∧
    thirdAuthStatus ⟨false, false⟩
        ((thirdAuthStatus ⟨false, false⟩ s2 b).2) b =
      (PollResp.status 2 none, s2) := by
  have hdel : (thirdAuthStatus ⟨false, false⟩ s1 a).2 = s1.del (thirdAuthcodeKey a) := by
    cases hr : readJson v <;> simp [thirdAuthStatus, h1, hv0, hv1, hv2, hr]
  have hfail : thirdAuthStatus ⟨false, false⟩ s2 b = (PollResp.status 2 none, s2) := by
    have l0 : ¬ ("0" : String).length = 0 := by decide
    have n1 : ¬ ("0" : String) = "1" := by decide
    simp [thirdAuthStatus, h2, l0, n1]
  refine ⟨hdel, ?_, hfail, ?_⟩
  · rw [hdel]
    simp [thirdAuthStatus, Store.getString_del_self]
  · rw [hfail]
    exact hfail

/-- Store fixture for the C1 amended witness: a serialized login result
under "a" and the failure sentinel under "b". -/
def c1ResultValue : String := toJson ⟨"uid1", "tok1", "alice"⟩

def c1StoreA : Store := Store.empty.set (thirdAuthcodeKey "a") c1ResultValue 60

def c1StoreB : Store := Store.empty.set (thirdAuthcodeKey "b") "0" 60

/-- C1 amended witness: a concrete store holding a serialized result under
"a" (consumed by the poll) and the failure sentinel under "b" (not
consumed). -/
theorem C1_amended_terminal_reads_witness :
    (thirdAuthStatus ⟨false, false⟩ c1StoreA "a").2 =
      c1StoreA.del (thirdAuthcodeKey "a") ∧
    (thirdAuthStatus ⟨false, false⟩
        ((thirdAuthStatus ⟨false, false⟩ c1StoreA "a").2) "a").1 =
      PollResp.error "登录状态已过期！" ∧
    thirdAuthStatus ⟨false, false⟩ c1StoreB "b" = (PollResp.status 2 none, c1StoreB) ∧
    thirdAuthStatus ⟨false, false⟩
        ((thirdAuthStatus ⟨false, false⟩ c1StoreB "b").2) "b" =
      (PollResp.status 2 none, c1StoreB) :=
  C1_amended_terminal_reads c1StoreA c1StoreB "a" "b" c1ResultValue rfl
    (by decide) (by decide) (by decide) rfl

/-- Is a callback response an error response? -/
def CallbackResp.isError : CallbackResp → Bool
  | CallbackResp.error _ => true
  | CallbackResp.ok _ => false

/-- Environment fixture for the C2 counterexample: the token exchange
succeeds but the provider profile fetch returns HTTP 500; everything
downstream is unreachable. -/
def c2Env : GiteeEnv :=
  ⟨Except.ok (some "tok"), Except.ok ⟨500, ""⟩, fun _ => Except.error "unreachable",
    Except.ok none, Except.error "unreachable", "uid1", false, false, true, true,
    Except.ok none, false⟩

/-- C2 counterexample: with a pending handshake for "abc123", a callback
whose provider profile fetch returns HTTP 500 responds with the provider
error but writes nothing to the Handoff Store — the subsequent poll
returns the Pending status (0), not the Failed status (2) the claim
requires. -/
theorem C2_provider_failure_counterexample :
    (giteeOAuth c2Env (Store.empty.set (thirdAuthcodeKey "abc123") "1" 300)
        "X" "abc123").resp =
      CallbackResp.error "获取gitee用户信息失败，状态码：500" ∧
    (thirdAuthStatus ⟨false, false⟩
        (giteeOAuth c2Env (Store.empty.set (thirdAuthcodeKey "abc123") "1" 300)
          "X" "abc123").store "abc123").1 = PollResp.status 0 none ∧
    (thirdAuthStatus ⟨false, false⟩
        (giteeOAuth c2Env (Store.empty.set (thirdAuthcodeKey "abc123") "1" 300)
          "X" "abc123").store "abc123").1 ≠ PollResp.status 2 none := by
  refine ⟨rfl, rfl, by decide⟩

/-- C2 amended: when the provider token exchange or the provider profile
fetch fails, the callback responds with the error and performs no write to
the Handoff Store: the entry is unchanged, no user is provisioned, no
login is executed, and a subsequent poll of a pending handshake still
returns the Pending status rather than Failed. -/
theorem C2_amended_provider_failure_leaves_pending (env : GiteeEnv) (store : Store)
    (code state e : String)
    (hc : ¬ code.length = 0)
    (h : env.postResult = Except.error e ∨
         requestGiteeUserInfo env.profileResp env.parseProfile = Except.error e) :
    (giteeOAuth env store code state).resp.isError = true ∧
    (giteeOAuth env store code state).store = store ∧
    (giteeOAuth env store code state).createdUser = none ∧
    (giteeOAuth env store code state).execLoginCalled = false ∧
    ∀ a, store.getString (thirdAuthcodeKey a) = "1" →
      (thirdAuthStatus ⟨false, false⟩ (giteeOAuth env store code state).store a).1 =
        PollResp.status 0 none := by
  have hmain : ∃ msg, giteeOAuth env store code state =
      ⟨CallbackResp.error msg, store, none, false, false, false⟩ := by
    rcases h with h | h
    · exact ⟨e, by simp [giteeOAuth, hc, requestGiteeAccessToken, h]⟩
    · cases hp : env.postResult with
      | error e2 => exact ⟨e2, by simp [giteeOAuth, hc, requestGiteeAccessToken, hp]⟩
      | ok tf => exact ⟨e, by simp [giteeOAuth, hc, requestGiteeAccessToken, hp, h]⟩
  obtain ⟨msg, hm⟩ := hmain
  rw [hm]
  refine ⟨rfl, rfl, rfl, rfl, fun a ha => ?_⟩
  show (thirdAuthStatus ⟨false, false⟩ store a).1 = PollResp.status 0 none
  rw [thirdAuthStatus_pending store a ha]

/-- Environment fixture for the C2 amended witness: the token exchange
itself fails with a transport error. -/
def c2wEnv : GiteeEnv :=
  ⟨Except.error "connection refused", Except.ok ⟨200, ""⟩,
    fun _ => Except.error "unreachable", Except.ok none, Except.error "unreachable",
    "uid1", false, false, true, true, Except.ok none, false⟩

def c2wStore : Store := Store.empty.set (thirdAuthcodeKey "abc123") "1" 300

/-- C2 amended witness: a concrete exchange-failure run over a pending
handshake. -/
theorem C2_amended_provider_failure_leaves_pending_witness :
    (giteeOAuth c2wEnv c2wStore "X" "abc123").resp.isError = true ∧
    (giteeOAuth c2wEnv c2wStore "X" "abc123").store = c2wStore ∧
    (giteeOAuth c2wEnv c2wStore "X" "abc123").createdUser = none ∧
    (giteeOAuth c2wEnv c2wStore "X" "abc123").execLoginCalled = false ∧
    (thirdAuthStatus ⟨false, false⟩
        (giteeOAuth c2wEnv c2wStore "X" "abc123").store "abc123").1 =
      PollResp.status 0 none := by
  have h := C2_amended_provider_failure_leaves_pending c2wEnv c2wStore "X" "abc123"
    "connection refused" (by decide) (Or.inl rfl)
  exact ⟨h.1, h.2.1, h.2.2.1, h.2.2.2.1, h.2.2.2.2 "abc123" rfl⟩

/-- C7 counterexample: an exchange response with no usable access token
makes `requestGiteeAccessToken` return successfully with the empty token —
not an error as the claim requires. -/
theorem C7_no_token_counterexample :
    requestGiteeAccessToken (Except.ok none) = Except.ok "" := rfl

/-- C7 amended: `requestGiteeAccessToken` returns an error exactly when the
underlying form POST fails; when the response lacks a usable access token
it returns success with the empty string, and the callback then proceeds
to the profile fetch (where a failure surfaces) instead of failing at the
exchange step. -/
theorem C7_amended_no_token_returns_empty (tf : Option String) (e : String)
    (env : GiteeEnv) (store : Store) (code state : String)
    (hc : ¬ code.length = 0)
    (hpost : env.postResult = Except.ok none)
    (hprof : env.profileResp = Except.error e) :
    requestGiteeAccessToken (Except.ok tf) = Except.ok (tf.getD "") ∧
    requestGiteeAccessToken (Except.error e) = Except.error e ∧
    giteeOAuth env store code state =
      ⟨CallbackResp.error e, store, none, false, false, false⟩ := by
  refine ⟨rfl, rfl, ?_⟩
  simp [giteeOAuth, hc, requestGiteeAccessToken, hpost, requestGiteeUserInfo, hprof]

/-- Environment fixture for the C7 amended witness. -/
def c7Env : GiteeEnv :=
  ⟨Except.ok none, Except.error "profile down", fun _ => Except.error "unreachable",
    Except.ok none, Except.error "unreachable", "uid1", false, false, true, true,
    Except.ok none, false⟩

/-- C7 amended witness: concrete no-token exchange followed by a failing
profile fetch. -/
theorem C7_amended_no_token_returns_empty_witness :
    requestGiteeAccessToken (Except.ok (some "t")) = Except.ok "t" ∧
    requestGiteeAccessToken (Except.error "profile down") = Except.error "profile down" ∧
    giteeOAuth c7Env Store.empty "X" "abc123" =
      ⟨CallbackResp.error "profile down", Store.empty, none, false, false, false⟩ :=
  C7_amended_no_token_returns_empty (some "t") "profile down" c7Env Store.empty
    "X" "abc123" (by decide) rfl rfl

/-- C8: a login result serialized by the callback's completion write into
the Handoff Store and read back by a poll deserializes to an equal value:
the poll returns the Succeeded status (1) carrying exactly the original
result, and consumes the entry. -/
theorem C8_serialized_result_roundtrip (lr : LoginResult) (store : Store)
    (authcode : String) :
    thirdAuthStatus ⟨false, false⟩
        (finishOutcome false store authcode (some lr) none true false false).store
        authcode =
      (PollResp.status 1 (some lr),
        ((finishOutcome false store authcode (some lr) none true false false).store).del
          (thirdAuthcodeKey authcode)) := by
  have hs : (finishOutcome false store authcode (some lr) none true false false).store =
      store.set (thirdAuthcodeKey authcode) (toJson lr) 60 := rfl
  rw [hs]
  have hget := Store.getString_set_self store (thirdAuthcodeKey authcode) (toJson lr) 60
  simp [thirdAuthStatus, hget, toJson_length_ne_zero lr, toJson_ne_one lr,
    toJson_ne_zero lr, readJson_toJson lr]

/-- C4: failure of any step of the avatar pipeline (a nil/timed-out
download, or a failed upload) never aborts provisioning: the flow still
reaches account creation, and the created user model carries
`IsUploadAvatar = 0`. -/
theorem C4_avatar_failure_never_aborts (env : GiteeEnv) (store : Store)
    (code state tok : String) (info : GiteeUserInfo)
    (hc : ¬ code.length = 0)
    (hpost : requestGiteeAccessToken env.postResult = Except.ok tok)
    (hprof : requestGiteeUserInfo env.profileResp env.parseProfile = Except.ok info)
    (hq : env.queryResult = Except.ok none)
    (hav : env.downloadOk = false ∨ env.uploadOk = false)
    (htx : env.beginTxOk = true) (hins : env.insertOk = true) :
    ((giteeOAuth env store code state).createdUser.map
      (fun m => m.isUploadAvatar)) = some 0 := by
  cases hcu : env.createUserResult <;> cases hsf : env.setFails <;>
    rcases hav with hav | hav <;>
    simp [giteeOAuth, hc, hpost, hprof, hq, htx, hins, hcu, hsf, hav, finishOutcome]

/-- Profile fixture used by the provisioning witnesses: a user with a real
avatar URL. -/
def infoAvatarW : GiteeUserInfo := ⟨"alice", "Alice", "https://cdn/ava.png"⟩

/-- Environment fixture for the C4 witness: avatar download yields nothing,
everything else succeeds. -/
def c4Env : GiteeEnv :=
  ⟨Except.ok (some "tok"), Except.ok ⟨200, "body"⟩, fun _ => Except.ok infoAvatarW,
    Except.ok none, Except.error "unreachable", "uid1", false, true, true, true,
    Except.ok (some ⟨"uid1", "tok1", "alice"⟩), false⟩

/-- C4 witness: a concrete first-time provisioning whose avatar download
fails. -/
theorem C4_avatar_failure_never_aborts_witness :
    ((giteeOAuth c4Env Store.empty "X" "abc123").createdUser.map
      (fun m => m.isUploadAvatar)) = some 0 :=
  C4_avatar_failure_never_aborts c4Env Store.empty "X" "abc123" "tok" infoAvatarW
    (by decide) rfl rfl rfl (Or.inl rfl) rfl rfl

/-- C5: a callback whose external identity matches an existing linked
record whose account is destroyed (`IsDestroy == 1`) issues no session:
`execLogin` is never invoked, nothing is written to the Handoff Store, and
the callback fails with the user-not-found error — in both the gitee and
the mall variant. -/
theorem C5_destroyed_account_blocks_login (envG : GiteeEnv) (envM : MallEnv)
    (sG sM : Store) (codeG tokenM stateG stateM tok : String)
    (m1 m2 : UserInfoModel) (info : GiteeUserInfo) (mu : MallUser)
    (hcG : ¬ codeG.length = 0)
    (hpost : requestGiteeAccessToken envG.postResult = Except.ok tok)
    (hprof : requestGiteeUserInfo envG.profileResp envG.parseProfile = Except.ok info)
    (hqG : envG.queryResult = Except.ok (some m1))
    (hdG : m1.isDestroy = 1)
    (hcM : ¬ tokenM.length = 0)
    (hmu : envM.mallUserResult = Except.ok mu)
    (hqM : envM.queryResult = Except.ok (some m2))
    (hdM : m2.isDestroy = 1) :
    giteeOAuth envG sG codeG stateG =
      ⟨CallbackResp.error "用户不存在", sG, none, false, false, false⟩ ∧
    mallOAuth envM sM tokenM stateM =
      ⟨CallbackResp.error "用户不存在", sM, none, false, false, false⟩ := by
  constructor
  · simp [giteeOAuth, hcG, hpost, hprof, hqG, hdG]
  · simp [mallOAuth, hcM, hmu, hqM, hdM]

/-- Destroyed linked-account fixture. -/
def destroyedW : UserInfoModel := ⟨"uidD", 1⟩

/-- Environment fixture for the C5 witness (gitee side). -/
def c5EnvG : GiteeEnv :=
  ⟨Except.ok (some "tok"), Except.ok ⟨200, "body"⟩, fun _ => Except.ok infoAvatarW,
    Except.ok (some destroyedW), Except.error "unreachable", "uid1", true, true,
    true, true, Except.ok none, false⟩

/-- Environment fixture for the C5 witness (mall side). -/
def c5EnvM : MallEnv :=
  ⟨Except.ok ⟨"mallUser", "https://cdn/p.png"⟩, Except.ok (some destroyedW),
    Except.error "unreachable", "uid1", true, true, true, true, Except.ok none, false⟩

/-- C5 witness: concrete destroyed-account callbacks on both variants. -/
theorem C5_destroyed_account_blocks_login_witness :
    giteeOAuth c5EnvG Store.empty "X" "abc123" =
      ⟨CallbackResp.error "用户不存在", Store.empty, none, false, false, false⟩ ∧
    mallOAuth c5EnvM Store.empty "T" "abc456" =
      ⟨CallbackResp.error "用户不存在", Store.empty, none, false, false, false⟩ :=
  C5_destroyed_account_blocks_login c5EnvG c5EnvM Store.empty Store.empty
    "X" "T" "abc123" "abc456" "tok" destroyedW destroyedW infoAvatarW
    ⟨"mallUser", "https://cdn/p.png"⟩ (by decide) rfl rfl rfl rfl (by decide)
    rfl rfl rfl

/-- C6: a callback with an empty authorization code (gitee `code`, mall
`token`) fails immediately with the empty-code error and performs no write
to the Handoff Store: the handshake entry is unchanged and a poll still
returns Pending. -/
theorem C6_empty_code_leaves_pending (envG : GiteeEnv) (envM : MallEnv)
    (sG sM : Store) (stG stM a b : String)
    (hA : sG.getString (thirdAuthcodeKey a) = "1")
    (hB : sM.getString (thirdAuthcodeKey b) = "1") :
    giteeOAuth envG sG "" stG =
      ⟨CallbackResp.error "code不能为空", sG, none, false, false, false⟩ ∧
    mallOAuth envM sM "" stM =
      ⟨CallbackResp.error "电商token不能为空", sM, none, false, false, false⟩ ∧
    (thirdAuthStatus ⟨false, false⟩ (giteeOAuth envG sG "" stG).store a).1 =
      PollResp.status 0 none ∧
    (thirdAuthStatus ⟨false, false⟩ (mallOAuth envM sM "" stM).store b).1 =
      PollResp.status 0 none := by
  refine ⟨rfl, rfl, ?_, ?_⟩
  · show (thirdAuthStatus ⟨false, false⟩ sG a).1 = PollResp.status 0 none
    rw [thirdAuthStatus_pending sG a hA]
  · show (thirdAuthStatus ⟨false, false⟩ sM b).1 = PollResp.status 0 none
    rw [thirdAuthStatus_pending sM b hB]

/-- C6 witness: concrete empty-code callbacks over pending handshakes. -/
theorem C6_empty_code_leaves_pending_witness :
    giteeOAuth c2Env (Store.empty.set (thirdAuthcodeKey "a") "1" 300) "" "a" =
      ⟨CallbackResp.error "code不能为空",
        Store.empty.set (thirdAuthcodeKey "a") "1" 300, none, false, false, false⟩ ∧
    mallOAuth c5EnvM (Store.empty.set (thirdAuthcodeKey "b") "1" 300) "" "b" =
      ⟨CallbackResp.error "电商token不能为空",
        Store.empty.set (thirdAuthcodeKey "b") "1" 300, none, false, false, false⟩ ∧
    (thirdAuthStatus ⟨false, false⟩
        (giteeOAuth c2Env (Store.empty.set (thirdAuthcodeKey "a") "1" 300) "" "a").store
        "a").1 = PollResp.status 0 none ∧
    (thirdAuthStatus ⟨false, false⟩
        (mallOAuth c5EnvM (Store.empty.set (thirdAuthcodeKey "b") "1" 300) "" "b").store
        "b").1 = PollResp.status 0 none :=
  C6_empty_code_leaves_pending c2Env c5EnvM
    (Store.empty.set (thirdAuthcodeKey "a") "1" 300)
    (Store.empty.set (thirdAuthcodeKey "b") "1" 300) "a" "b" "a" "b" rfl rfl

/-- C10: when the external profile's avatar URL is empty or ends with
"no_portrait.png", neither the avatar download nor the upload is
attempted and the created account's `IsUploadAvatar` flag is 0 — in both
the gitee and the mall variant. -/
theorem C10_placeholder_avatar_skipped (envG : GiteeEnv) (envM : MallEnv)
    (sG sM : Store) (codeG tokenM stateG stateM tok : String)
    (info : GiteeUserInfo) (mu : MallUser)
    (hcG : ¬ codeG.length = 0)
    (hpost : requestGiteeAccessToken envG.postResult = Except.ok tok)
    (hprof : requestGiteeUserInfo envG.profileResp envG.parseProfile = Except.ok info)
    (hqG : envG.queryResult = Except.ok none)
    (hurlG : info.avatarURL = "" ∨ strHasSuffix info.avatarURL "no_portrait.png" = true)
    (htxG : envG.beginTxOk = true) (hinsG : envG.insertOk = true)
    (hcM : ¬ tokenM.length = 0)
    (hmu : envM.mallUserResult = Except.ok mu)
    (hqM : envM.queryResult = Except.ok none)
    (hurlM : mu.photo = "" ∨ strHasSuffix mu.photo "no_portrait.png" = true)
    (htxM : envM.beginTxOk = true) (hinsM : envM.insertOk = true) :
    (giteeOAuth envG sG codeG stateG).downloadAttempted = false ∧
    (giteeOAuth envG sG codeG stateG).uploadAttempted = false ∧
    ((giteeOAuth envG sG codeG stateG).createdUser.map
      (fun m => m.isUploadAvatar)) = some 0 ∧
    (mallOAuth envM sM tokenM stateM).downloadAttempted = false ∧
    (mallOAuth envM sM tokenM stateM).uploadAttempted = false ∧
    ((mallOAuth envM sM tokenM stateM).createdUser.map
      (fun m => m.isUploadAvatar)) = some 0 := by
  have hG : (giteeOAuth envG sG codeG stateG).downloadAttempted = false ∧
      (giteeOAuth envG sG codeG stateG).uploadAttempted = false ∧
      ((giteeOAuth envG sG codeG stateG).createdUser.map
        (fun m => m.isUploadAvatar)) = some 0 := by
    cases hcu : envG.createUserResult <;> cases hsf : envG.setFails <;>
      rcases hurlG with hu | hu <;>
      simp [giteeOAuth, hcG, hpost, hprof, hqG, htxG, hinsG, hcu, hsf, hu, finishOutcome]
  have hM : (mallOAuth envM sM tokenM stateM).downloadAttempted = false ∧
      (mallOAuth envM sM tokenM stateM).uploadAttempted = false ∧
      ((mallOAuth envM sM tokenM stateM).createdUser.map
        (fun m => m.isUploadAvatar)) = some 0 := by
    cases hcu : envM.createUserResult <;> cases hsf : envM.setFails <;>
      rcases hurlM with hu | hu <;>
      simp [mallOAuth, hcM, hmu, hqM, htxM, hinsM, hcu, hsf, hu, finishOutcome]
  exact ⟨hG.1, hG.2.1, hG.2.2, hM.1, hM.2.1, hM.2.2⟩

/-- Environment fixture for the C10 witness (gitee side): the provider
avatar is the placeholder. -/
def c10EnvG : GiteeEnv :=
  ⟨Except.ok (some "tok"), Except.ok ⟨200, "body"⟩,
    fun _ => Except.ok ⟨"alice", "Alice", "https://cdn/no_portrait.png"⟩,
    Except.ok none, Except.error "unreachable", "uid1", true, true, true, true,
    Except.ok (some ⟨"uid1", "tok1", "alice"⟩), false⟩

/-- Environment fixture for the C10 witness (mall side): the photo field is
empty. -/
def c10EnvM : MallEnv :=
  ⟨Except.ok ⟨"mallUser", ""⟩, Except.ok none, Except.error "unreachable",
    "uid2", true, true, true, true, Except.ok (some ⟨"uid2", "tok2", "m"⟩), false⟩

/-- C10 witness: concrete provisioning runs with a placeholder avatar URL
(gitee) and an empty photo (mall). -/
theorem C10_placeholder_avatar_skipped_witness :
    (giteeOAuth c10EnvG Store.empty "X" "abc123").downloadAttempted = false ∧
    (giteeOAuth c10EnvG Store.empty "X" "abc123").uploadAttempted = false ∧
    ((giteeOAuth c10EnvG Store.empty "X" "abc123").createdUser.map
      (fun m => m.isUploadAvatar)) = some 0 ∧
    (mallOAuth c10EnvM Store.empty "T" "abc456").downloadAttempted = false ∧
    (mallOAuth c10EnvM Store.empty "T" "abc456").uploadAttempted = false ∧
    ((mallOAuth c10EnvM Store.empty "T" "abc456").createdUser.map
      (fun m => m.isUploadAvatar)) = some 0 :=
  C10_placeholder_avatar_skipped c10EnvG c10EnvM Store.empty Store.empty
    "X" "T" "abc123" "abc456" "tok" ⟨"alice", "Alice", "https://cdn/no_portrait.png"⟩
    ⟨"mallUser", ""⟩ (by decide) rfl rfl rfl (Or.inr (by decide)) rfl rfl
    (by decide) rfl rfl (Or.inl rfl) rfl rfl

theorem pushLoop_broke_sets (env : PushEnv) (key : String) (store : Store)
    (hsf : env.setFails = false) :
    ∀ (l : List String) (sent : Nat),
      (pushLoop env key store l sent).exit = LoopExit.broke →
      (pushLoop env key store l sent).store = store.set key "1" 300 := by
  intro l
  induction l with
  | nil =>
    intro sent hex
    simp [pushLoop] at hex
  | cons hd tl ih =>
    intro sent hex
    cases hpo : env.postOutcome hd with
    | success => simp [pushLoop, hpo, hsf]
    | errNilResp => simp [pushLoop, hpo] at hex
    | errWithResp =>
      simp only [pushLoop, hpo] at hex ⊢
      exact ih (sent + 1) hex

/-- C9: when the deduplication key for a recipient holds a non-empty
presence marker, `Push` sends no outbound notification request (zero posts)
and returns nil with the cache unchanged; and in any run in which a
configured server accepts the post (the server loop exits through the
success break rather than finishing or panicking at the deferred
nil-response body close), the presence marker "1" is stored under the key
with a 5-minute (300 s) expiry and `Push` returns nil, so a second `Push`
for the same uid is suppressed: it returns nil, sends nothing and leaves
the cache unchanged. -/
theorem C9_push_dedup (envA envB envC : PushEnv) (sA sB : Store)
    (uidA uidB cA cB cC : String)
    (hA1 : envA.getFails = false)
    (hA2 : 0 < (sA.getString (echoooPushKey uidA)).length)
    (hB1 : envB.getFails = false) (hB2 : envB.setFails = false)
    (hB3 : sB.getString (echoooPushKey uidB) = "")
    (hB4 : 0 < envB.serverAddresses.length)
    (hB5 : (pushLoop envB (echoooPushKey uidB) sB
        (splitServers envB.serverAddresses) 0).exit = LoopExit.broke)
    (hC : envC.getFails = false) :
    Push envA sA uidA cA = ⟨PushResult.ok, sA, 0⟩ ∧
    (Push envB sB uidB cB).result = PushResult.ok ∧
    (Push envB sB uidB cB).store (echoooPushKey uidB) = some ⟨"1", 300⟩ ∧
    Push envC (Push envB sB uidB cB).store uidB cC =
      ⟨PushResult.ok, (Push envB sB uidB cB).store, 0⟩ := by
  have h1 : Push envA sA uidA cA = ⟨PushResult.ok, sA, 0⟩ := by
    simp [Push, hA1, hA2]
  have hloop := pushLoop_broke_sets envB (echoooPushKey uidB) sB hB2
    (splitServers envB.serverAddresses) 0 hB5
  have hlen : ¬ 0 < (sB.getString (echoooPushKey uidB)).length := by
    rw [hB3]; decide
  have hB : Push envB sB uidB cB =
      ⟨PushResult.ok, sB.set (echoooPushKey uidB) "1" 300,
        (pushLoop envB (echoooPushKey uidB) sB
          (splitServers envB.serverAddresses) 0).sent⟩ := by
    simp [Push, hB1, hlen, hB4, hB5, hloop]
  refine ⟨h1, by rw [hB], ?_, ?_⟩
  · rw [hB]
    show (sB.set (echoooPushKey uidB) "1" 300) (echoooPushKey uidB) = some ⟨"1", 300⟩
    rw [Store.set]
    simp
  · rw [hB]
    have hget := Store.getString_set_self sB (echoooPushKey uidB) "1" 300
    have hlen1 : 0 < ((sB.set (echoooPushKey uidB) "1" 300).getString
        (echoooPushKey uidB)).length := by
      rw [hget]; decide
    simp [Push, hC, hlen1]

/-- Environment fixture for the C9 witness: two servers, the first
accepting the post. -/
def c9Env : PushEnv := ⟨"srv1,srv2", false, fun _ => PostOutcome.success, false⟩

def c9StoreA : Store := Store.empty.set (echoooPushKey "u1") "1" 300

/-- C9 witness: a concrete suppressed push, a concrete marker-writing push
and the suppressed second push after it. -/
theorem C9_push_dedup_witness :
    Push c9Env c9StoreA "u1" "hello" = ⟨PushResult.ok, c9StoreA, 0⟩ ∧
    (Push c9Env Store.empty "u2" "hi").result = PushResult.ok ∧
    (Push c9Env Store.empty "u2" "hi").store (echoooPushKey "u2") = some ⟨"1", 300⟩ ∧
    Push c9Env (Push c9Env Store.empty "u2" "hi").store "u2" "hi2" =
      ⟨PushResult.ok, (Push c9Env Store.empty "u2" "hi").store, 0⟩ :=
  C9_push_dedup c9Env c9Env c9Env c9StoreA Store.empty "u1" "u2" "hello" "hi" "hi2"
    rfl (by decide) rfl rfl rfl (by decide) rfl rfl
